import Mathlib

/-!
Shallow embedding of the value decoding engine of `xsqlvar.go` (package
firebirdsql) and proofs about it.  Go machine integers are modelled as
`Int` with explicit two's-complement wrapping where the Go code can wrap;
Go's `/` and `%` on integers (truncated division) are modelled by
`Int.tdiv` / `Int.tmod`; byte buffers are `List Nat` whose elements are
byte values; Go strings produced by the text decoders are modelled as
lists of bytes.  The external collaborators (the golang.org/x/text
decoders, the shopspring decimal constructors for the packed decimal
types, the timezone ID table and the IANA timezone database behind
`time.LoadLocation`) are parameters, collected in the `Externals`
structure.
-/

namespace Fb

/-- Big-endian unsigned value of a byte list (helper used to state claims
about buffers interpreted as unsigned integers). -/
def beU (b : List Nat) : Nat := b.foldl (fun acc x => acc * 256 + x) 0

/-- Modelled from the spec: `bytes_to_bint16` is declared outside `src/`.
Per the spec the wire carries big-endian two's-complement integers, here
of width 16 bits (used for the 2-byte big-endian timezone identifier). -/
def bytes_to_bint16 (b : List Nat) : Int :=
  let u : Nat := beU (b.take 2)
  if u < 32768 then (u : Int) else (u : Int) - 65536

/-- Modelled from the spec: `bytes_to_bint32` is declared outside `src/`.
It reads a signed 32-bit big-endian two's-complement integer from the
first four bytes of the buffer. -/
def bytes_to_bint32 (b : List Nat) : Int :=
  let u : Nat := beU (b.take 4)
  if u < 2147483648 then (u : Int) else (u : Int) - 4294967296

/-- Modelled from the spec: `bytes_to_bint64` is declared outside `src/`.
It reads a signed 64-bit big-endian two's-complement integer from the
first eight bytes of the buffer (one of the "two big-endian 64-bit
halves" of an INT128). -/
def bytes_to_bint64 (b : List Nat) : Int :=
  let u : Nat := beU (b.take 8)
  if u < 9223372036854775808 then (u : Int) else (u : Int) - 18446744073709551616

/-- Go conversion `int16(n)`: keep the low 16 bits, two's complement. -/
def toInt16 (n : Int) : Int := (n + 32768) % 65536 - 32768

/-- Go conversion `int32(n)`: keep the low 32 bits, two's complement. -/
def toInt32 (n : Int) : Int := (n + 2147483648) % 4294967296 - 2147483648

/-- Go `int64` arithmetic wraps modulo 2^64, two's complement. -/
def wrap64 (n : Int) : Int :=
  (n + 9223372036854775808) % 18446744073709551616 - 9223372036854775808

/-- Go integer division `/` truncates toward zero. -/
def goDiv (a b : Int) : Int := Int.tdiv a b

/-- Go integer remainder `%` takes the sign of the dividend. -/
def goMod (a b : Int) : Int := Int.tmod a b

/-- Go expression `int64(math.Pow10(s))` as used by the scale branches of
`value`.  For `s < 0`, `math.Pow10` returns a float in `[0, 1)` and the
conversion truncates it to `0`.  For `0 ≤ s ≤ 18` the float is the exact
power of ten and it fits in `int64`, so the conversion is exact.  For
`s > 18` the float exceeds the `int64` range and the gc toolchain's
conversion yields the minimal `int64`. -/
def goPow10Int64 (s : Int) : Int :=
  if s < 0 then 0
  else if s ≤ 18 then 10 ^ s.toNat
  else -9223372036854775808

/-- Value of the shopspring `decimal.Decimal` produced by
`decimal.New(mant, exp)`: the exact decimal `mant × 10^exp`.  Only the
constructor-level view is needed by this engine. -/
structure Decimal where
  mant : Int
  exp : Int
  deriving DecidableEq

/-- Go call `decimal.New(v, e)` with `v : int64` and `e : int32`. -/
def decimalNew (v : Int) (e : Int) : Decimal := ⟨v, e⟩

/-- Exact rational value represented by a `Decimal`: `mant · 10^exp`
(shopspring decimals are exact scaled integers, no binary rounding). -/
def decValue (d : Decimal) : ℚ := (d.mant : ℚ) * (10 : ℚ) ^ d.exp

/-- Result of Go `time.Date(year, month, day, hour, minute, second, nsec,
loc)` for the in-range components produced by this engine.  `loc = none`
models a nil `*time.Location`.  (`time.Date` also normalizes out-of-range
components; every call made by this engine that a claim evaluates passes
in-range components, so normalization is not modelled.) -/
structure GoTime where
  year : Int
  month : Int
  day : Int
  hour : Int
  minute : Int
  second : Int
  nsec : Int
  loc : Option String
  deriving DecidableEq

/-- Column descriptor, structure `xSQLVAR` of the source. -/
structure xSQLVAR where
  sqltype : Int
  sqlscale : Int
  sqlsubtype : Int
  sqllen : Int
  null_ok : Bool
  fieldname : String
  relname : String
  ownname : String
  aliasname : String
  deriving DecidableEq

/-- External collaborators of the decoding engine, passed as parameters:
the golang.org/x/text legacy-charset decoders actually referenced by
`parseString` (note there is no ISO8859_4, WIN1253 or WIN1254 decoder —
the source routes those names through the ISO8859_5 and Windows1252
decoders), the timezone ID table (`timezoneNameById`, declared outside
`src/`), the IANA database consulted by `time.LoadLocation`, and the
packed-decimal routines for DEC_FIXED/DEC64/DEC128 (declared outside
`src/`). -/
structure Externals where
  sjis : List Nat → List Nat
  eucjp : List Nat → List Nat
  iso8859_1 : List Nat → List Nat
  iso8859_2 : List Nat → List Nat
  iso8859_3 : List Nat → List Nat
  iso8859_5 : List Nat → List Nat
  iso8859_6 : List Nat → List Nat
  iso8859_7 : List Nat → List Nat
  iso8859_8 : List Nat → List Nat
  iso8859_9 : List Nat → List Nat
  iso8859_13 : List Nat → List Nat
  euckr : List Nat → List Nat
  win1250 : List Nat → List Nat
  win1251 : List Nat → List Nat
  win1252 : List Nat → List Nat
  win1255 : List Nat → List Nat
  win1256 : List Nat → List Nat
  win1257 : List Nat → List Nat
  win1258 : List Nat → List Nat
  big5 : List Nat → List Nat
  hzgb2312 : List Nat → List Nat
  koi8r : List Nat → List Nat
  koi8u : List Nat → List Nat
  timezoneNameById : Int → Option String
  tzdbHas : String → Bool
  decimalFixedToDecimal : List Nat → Int → Decimal
  decimal64ToDecimal : List Nat → Decimal
  decimal128ToDecimal : List Nat → Decimal

/-- Concrete instantiation of the external collaborators used to evaluate
the engine on concrete inputs: identity decoders, an empty timezone ID
table, an empty IANA database, and zero packed-decimal routines. -/
def defaultExternals : Externals where
  sjis := id
  eucjp := id
  iso8859_1 := id
  iso8859_2 := id
  iso8859_3 := id
  iso8859_5 := id
  iso8859_6 := id
  iso8859_7 := id
  iso8859_8 := id
  iso8859_9 := id
  iso8859_13 := id
  euckr := id
  win1250 := id
  win1251 := id
  win1252 := id
  win1255 := id
  win1256 := id
  win1257 := id
  win1258 := id
  big5 := id
  hzgb2312 := id
  koi8r := id
  koi8u := id
  timezoneNameById := fun _ => none
  tzdbHas := fun _ => false
  decimalFixedToDecimal := fun _ _ => ⟨0, 0⟩
  decimal64ToDecimal := fun _ => ⟨0, 0⟩
  decimal128ToDecimal := fun _ => ⟨0, 0⟩

/-- Type code constants of the source. -/
def SQL_TYPE_TEXT : Int := 452
def SQL_TYPE_VARYING : Int := 448
def SQL_TYPE_SHORT : Int := 500
def SQL_TYPE_LONG : Int := 496
def SQL_TYPE_FLOAT : Int := 482
def SQL_TYPE_DOUBLE : Int := 480
def SQL_TYPE_D_FLOAT : Int := 530
def SQL_TYPE_TIMESTAMP : Int := 510
def SQL_TYPE_BLOB : Int := 520
def SQL_TYPE_ARRAY : Int := 540
def SQL_TYPE_QUAD : Int := 550
def SQL_TYPE_TIME : Int := 560
def SQL_TYPE_DATE : Int := 570
def SQL_TYPE_INT64 : Int := 580
def SQL_TYPE_INT128 : Int := 32752
def SQL_TYPE_TIMESTAMP_TZ : Int := 32754
def SQL_TYPE_TIME_TZ : Int := 32756
def SQL_TYPE_DEC_FIXED : Int := 32758
def SQL_TYPE_DEC64 : Int := 32760
def SQL_TYPE_DEC128 : Int := 32762
def SQL_TYPE_BOOLEAN : Int := 32764
def SQL_TYPE_NULL : Int := 32766

/-- Modelled from the Go standard library boundary: `time.LoadLocation`
returns UTC for the empty name, the fixed names UTC and Local, any zone
present in the IANA database, and fails (`none`) otherwise. -/
def loadLocation (env : Externals) (name : String) : Option String :=
  if name = "" ∨ name = "UTC" then some "UTC"
  else if name = "Local" then some "Local"
  else if env.tzdbHas name then some name
  else none

/-- Modelled from the spec: `getTimezoneNameByID` (declared outside
`src/`) resolves a numeric wire timezone identifier through the Timezone
ID Table; being a Go map lookup it returns the zero value, the empty
string, when the ID has no entry. -/
def getTimezoneNameByID (env : Externals) (id : Int) : String :=
  (env.timezoneNameById id).getD ""

/-- Method `_parseTimezone` of the source: looks the 2-byte big-endian ID
up in the timezone table and loads the named location, discarding the
`LoadLocation` error (`tz, _ := time.LoadLocation(timezone)`), so a
failed load yields a nil location (`none`), never an error value. -/
def _parseTimezone (env : Externals) (raw_value : List Nat) : Option String :=
  loadLocation env (getTimezoneNameByID env (bytes_to_bint16 raw_value))

/-- Method `_parseDate` of the source: the integer calendar algorithm, in
Go's truncated integer division. -/
def _parseDate (raw_value : List Nat) : Int × Int × Int :=
  let nday := bytes_to_bint32 raw_value + 678882
  let century := goDiv (4 * nday - 1) 146097
  let nday1 := 4 * nday - 1 - 146097 * century
  let day := goDiv nday1 4
  let nday2 := goDiv (4 * day + 3) 1461
  let day1 := 4 * day + 3 - 1461 * nday2
  let day2 := goDiv (day1 + 4) 4
  let month := goDiv (5 * day2 - 3) 153
  let day3 := 5 * day2 - 3 - 153 * month
  let day4 := goDiv (day3 + 5) 5
  let year := 100 * century + nday2
  if month < 10 then (year, month + 3, day4) else (year + 1, month - 9, day4)

/-- Method `_parseTime` of the source: the wire value is read through the
signed reader `bytes_to_bint32`, then split with Go's truncated division
and remainder into `(hours, minutes, seconds, nanoseconds)`. -/
def _parseTime (raw_value : List Nat) : Int × Int × Int × Int :=
  let n := bytes_to_bint32 raw_value
  let s := goDiv n 10000
  let m := goDiv s 60
  let h := goDiv m 60
  (h, goMod m 60, goMod s 60, goMod n 10000 * 100000)

/-- Method `parseDate` of the source: `tz := time.Local`, replaced by the
(possibly failing, error discarded) load of a non-empty session timezone
name, then `time.Date(year, month, day, 0, 0, 0, 0, tz)`. -/
def parseDate (env : Externals) (raw_value : List Nat) (timezone : String) : GoTime :=
  let tz := if timezone = "" then some "Local" else loadLocation env timezone
  match _parseDate raw_value with
  | (year, month, day) => ⟨year, month, day, 0, 0, 0, 0, tz⟩

/-- Method `parseTime` of the source. -/
def parseTime (env : Externals) (raw_value : List Nat) (timezone : String) : GoTime :=
  let tz := if timezone = "" then some "Local" else loadLocation env timezone
  match _parseTime raw_value with
  | (h, m, s, n) => ⟨0, 1, 1, h, m, s, n, tz⟩

/-- Method `parseTimestamp` of the source: 4-byte date block then 4-byte
time block. -/
def parseTimestamp (env : Externals) (raw_value : List Nat) (timezone : String) : GoTime :=
  let tz := if timezone = "" then some "Local" else loadLocation env timezone
  match _parseDate (raw_value.take 4), _parseTime (raw_value.drop 4) with
  | (year, month, day), (h, m, s, n) => ⟨year, month, day, h, m, s, n, tz⟩

/-- Method `parseTimeTz` of the source: 4-byte time block, then the
2-byte timezone identifier resolved by `_parseTimezone`. -/
def parseTimeTz (env : Externals) (raw_value : List Nat) : GoTime :=
  match _parseTime (raw_value.take 4) with
  | (h, m, s, n) => ⟨0, 1, 1, h, m, s, n, _parseTimezone env (raw_value.drop 4)⟩

/-- Method `parseTimestampTz` of the source. -/
def parseTimestampTz (env : Externals) (raw_value : List Nat) : GoTime :=
  match _parseDate (raw_value.take 4), _parseTime ((raw_value.drop 4).take 4) with
  | (year, month, day), (h, m, s, n) =>
    ⟨year, month, day, h, m, s, n, _parseTimezone env (raw_value.drop 8)⟩

/-- Result of `parseString` (Go `interface\x7b\x7d`): either raw bytes or a
Go string (modelled as its UTF-8 byte list). -/
inductive PSOut where
  | psBytes (b : List Nat)
  | psStr (s : List Nat)
  deriving DecidableEq

/-- Method `parseString` of the source: octets subtype passes bytes
through; text subtype dispatches on the declared charset name (note the
source routes ISO8859_4 through the ISO8859_5 decoder and WIN1253 and
WIN1254 through the Windows1252 decoder); any other subtype returns the
raw bytes. -/
def parseString (env : Externals) (x : xSQLVAR) (raw_value : List Nat)
    (charset : String) : PSOut :=
  if x.sqlsubtype = 1 then .psBytes raw_value
  else if x.sqlsubtype = 0 then
    match charset with
    | "OCTETS" => .psBytes raw_value
    | "UNICODE_FSS" => .psStr raw_value
    | "UTF8" => .psStr raw_value
    | "SJIS_0208" => .psStr (env.sjis raw_value)
    | "EUCJ_0208" => .psStr (env.eucjp raw_value)
    | "ISO8859_1" => .psStr (env.iso8859_1 raw_value)
    | "ISO8859_2" => .psStr (env.iso8859_2 raw_value)
    | "ISO8859_3" => .psStr (env.iso8859_3 raw_value)
    | "ISO8859_4" => .psStr (env.iso8859_5 raw_value)
    | "ISO8859_5" => .psStr (env.iso8859_5 raw_value)
    | "ISO8859_6" => .psStr (env.iso8859_6 raw_value)
    | "ISO8859_7" => .psStr (env.iso8859_7 raw_value)
    | "ISO8859_8" => .psStr (env.iso8859_8 raw_value)
    | "ISO8859_9" => .psStr (env.iso8859_9 raw_value)
    | "ISO8859_13" => .psStr (env.iso8859_13 raw_value)
    | "KSC_5601" => .psStr (env.euckr raw_value)
    | "WIN1250" => .psStr (env.win1250 raw_value)
    | "WIN1251" => .psStr (env.win1251 raw_value)
    | "WIN1252" => .psStr (env.win1252 raw_value)
    | "WIN1253" => .psStr (env.win1252 raw_value)
    | "WIN1254" => .psStr (env.win1252 raw_value)
    | "BIG_5" => .psStr (env.big5 raw_value)
    | "GB_2312" => .psStr (env.hzgb2312 raw_value)
    | "WIN1255" => .psStr (env.win1255 raw_value)
    | "WIN1256" => .psStr (env.win1256 raw_value)
    | "WIN1257" => .psStr (env.win1257 raw_value)
    | "KOI8R" => .psStr (env.koi8r raw_value)
    | "KOI8U" => .psStr (env.koi8u raw_value)
    | "WIN1258" => .psStr (env.win1258 raw_value)
    | _ => .psStr raw_value
  else .psBytes raw_value

/-- Decoded value, the Go `interface\x7b\x7d` result of `value`.  Binary
floats are kept as their big-endian bit pattern (no claim inspects the
IEEE value). -/
inductive SQLValue where
  | vStr (s : List Nat)
  | vBytes (b : List Nat)
  | vInt16 (n : Int)
  | vInt32 (n : Int)
  | vInt64 (n : Int)
  | vBigInt (n : Int)
  | vDecimal (d : Decimal)
  | vTime (t : GoTime)
  | vFloat32 (bits : List Nat)
  | vFloat64 (bits : List Nat)
  | vBool (b : Bool)
  | vNil
  deriving DecidableEq

/-- Lift a `parseString` result into a decoded value. -/
def ofPS : PSOut → SQLValue
  | .psBytes b => .vBytes b
  | .psStr s => .vStr s

/-- Method `value` of the source: the type-code dispatch.  The error
component models Go's `err` result; only the two `binary.Read` calls of
the float branches can set it (a buffer shorter than the float width
leaves the float zero and reports an unexpected end of input).  The
switch has no default case: an unhandled type code leaves `v` and `err`
nil, modelled by `(.vNil, none)`. -/
def value (env : Externals) (x : xSQLVAR) (raw_value : List Nat)
    (timezone : String) (charset : String) : SQLValue × Option String :=
  if x.sqltype = SQL_TYPE_TEXT then
    (if x.sqlsubtype = 1 then .vBytes raw_value
     else ofPS (parseString env x raw_value charset), none)
  else if x.sqltype = SQL_TYPE_VARYING then
    (if x.sqlsubtype = 1 then .vBytes raw_value
     else ofPS (parseString env x raw_value charset), none)
  else if x.sqltype = SQL_TYPE_SHORT then
    let i16 := toInt16 (bytes_to_bint32 raw_value)
    if 0 < x.sqlscale then (.vInt64 (wrap64 (i16 * goPow10Int64 x.sqlscale)), none)
    else if x.sqlscale < 0 then (.vDecimal (decimalNew i16 (toInt32 x.sqlscale)), none)
    else (.vInt16 i16, none)
  else if x.sqltype = SQL_TYPE_LONG then
    let i32 := bytes_to_bint32 raw_value
    if 0 < x.sqlscale then (.vInt64 (wrap64 (i32 * goPow10Int64 x.sqlscale)), none)
    else if x.sqlscale < 0 then (.vDecimal (decimalNew i32 (toInt32 x.sqlscale)), none)
    else (.vInt32 i32, none)
  else if x.sqltype = SQL_TYPE_INT64 then
    let i64 := bytes_to_bint64 raw_value
    if 0 < x.sqlscale then (.vInt64 (wrap64 (i64 * goPow10Int64 x.sqlscale)), none)
    else if x.sqlscale < 0 then (.vDecimal (decimalNew i64 (toInt32 x.sqlscale)), none)
    else (.vInt64 i64, none)
  else if x.sqltype = SQL_TYPE_INT128 then
    (.vBigInt ((bytes_to_bint64 (raw_value.take 8) * 18446744073709551616
        + bytes_to_bint64 (raw_value.drop 8)) * goPow10Int64 x.sqlscale), none)
  else if x.sqltype = SQL_TYPE_DATE then
    (.vTime (parseDate env raw_value timezone), none)
  else if x.sqltype = SQL_TYPE_TIME then
    (.vTime (parseTime env raw_value timezone), none)
  else if x.sqltype = SQL_TYPE_TIMESTAMP then
    (.vTime (parseTimestamp env raw_value timezone), none)
  else if x.sqltype = SQL_TYPE_TIME_TZ then
    (.vTime (parseTimeTz env raw_value), none)
  else if x.sqltype = SQL_TYPE_TIMESTAMP_TZ then
    (.vTime (parseTimestampTz env raw_value), none)
  else if x.sqltype = SQL_TYPE_FLOAT then
    if 4 ≤ raw_value.length then (.vFloat32 (raw_value.take 4), none)
    else (.vFloat32 [0, 0, 0, 0], some "unexpected EOF")
  else if x.sqltype = SQL_TYPE_DOUBLE then
    if 8 ≤ raw_value.length then (.vFloat64 (raw_value.take 8), none)
    else (.vFloat64 [0, 0, 0, 0, 0, 0, 0, 0], some "unexpected EOF")
  else if x.sqltype = SQL_TYPE_BOOLEAN then
    (.vBool (raw_value.getD 0 0 != 0), none)
  else if x.sqltype = SQL_TYPE_BLOB then
    (.vBytes raw_value, none)
  else if x.sqltype = SQL_TYPE_DEC_FIXED then
    (.vDecimal (env.decimalFixedToDecimal raw_value (toInt32 x.sqlscale)), none)
  else if x.sqltype = SQL_TYPE_DEC64 then
    (.vDecimal (env.decimal64ToDecimal raw_value), none)
  else if x.sqltype = SQL_TYPE_DEC128 then
    (.vDecimal (env.decimal128ToDecimal raw_value), none)
  else (.vNil, none)

/-- Follows the spec's words (§4.4): the integer calendar algorithm with
floor division throughout, for comparison with `_parseDate`. -/
def specDateAlg (wireDay : Int) : Int × Int × Int :=
  let nday := wireDay + 678882
  let century := Int.fdiv (4 * nday - 1) 146097
  let nday1 := 4 * nday - 1 - 146097 * century
  let day := Int.fdiv nday1 4
  let nday2 := Int.fdiv (4 * day + 3) 1461
  let day1 := 4 * day + 3 - 1461 * nday2
  let day2 := Int.fdiv (day1 + 4) 4
  let month := Int.fdiv (5 * day2 - 3) 153
  let day3 := 5 * day2 - 3 - 153 * month
  let day4 := Int.fdiv (day3 + 5) 5
  let year := 100 * century + nday2
  if month < 10 then (year, month + 3, day4) else (year + 1, month - 9, day4)

/-- Follows the spec's words (§4.4): decoding of an unsigned count `n` of
ten-thousandths of a second since midnight into
`(hours, minutes, seconds, nanoseconds)`, for comparison with
`_parseTime`. -/
def specTimeParts (n : Nat) : Int × Int × Int × Int :=
  ((n / 10000 / 3600 : Nat), ((n / 10000 / 60) % 60 : Nat),
    (n / 10000 % 60 : Nat), (n % 10000 * 100000 : Nat))

/-- Follows the spec's words (§4.3, 128-bit integer type): reconstruct
`(highInt64 << 64) + lowInt64` and multiply by `10^scale` as an exact
arithmetic operation, for comparison with the INT128 branch of `value`. -/
def specInt128Value (raw : List Nat) (scale : Int) : ℚ :=
  ((bytes_to_bint64 (raw.take 8) : ℚ) * 18446744073709551616
    + (bytes_to_bint64 (raw.drop 8) : ℚ)) * (10 : ℚ) ^ scale

end Fb

namespace Fb

/-! Helper lemmas shared by the claim theorems. -/

/-- For a scale in `[0, 18]` the Go expression `int64(math.Pow10(s))` is
the exact power of ten. -/
theorem goPow10Int64_eq_pow {s : Int} (h0 : 0 ≤ s) (h18 : s ≤ 18) :
    goPow10Int64 s = 10 ^ s.toNat := by
  unfold goPow10Int64
  rw [if_neg (by omega), if_pos h18]

/-- Go `int64` arithmetic is exact while the result stays in range. -/
theorem wrap64_eq_self {n : Int} (h1 : -9223372036854775808 ≤ n)
    (h2 : n < 9223372036854775808) : wrap64 n = n := by
  unfold wrap64
  omega

/-- Go's `int32(n)` conversion is the identity on in-range values. -/
theorem toInt32_eq_self {n : Int} (h1 : -2147483648 ≤ n)
    (h2 : n < 2147483648) : toInt32 n = n := by
  unfold toInt32
  omega

/-- A buffer whose big-endian unsigned value has the 32-bit sign bit
clear is read back unchanged by the signed reader. -/
theorem bytes_to_bint32_eq_beU {raw : List Nat} (hlen : raw.length = 4)
    (h : beU raw < 2147483648) : bytes_to_bint32 raw = (beU raw : Int) := by
  have ht : raw.take 4 = raw := List.take_of_length_le (by omega)
  unfold bytes_to_bint32
  rw [ht]
  exact if_pos h

/-- C3 (counterexample): at wire day −678883 the Go truncated-division
algorithm and the spec's floor-division algorithm disagree: the code
yields `(0, 3, 0)` while the floor algorithm yields `(0, 2, 28)`, so the
claim's "including for wire day values that make intermediate quantities
negative" is false. -/
theorem parseDate_trunc_ne_floor_at_neg678883 :
    bytes_to_bint32 [255, 245, 164, 29] = -678883 ∧
    _parseDate [255, 245, 164, 29] = (0, 3, 0) ∧
    specDateAlg (-678883) = (0, 2, 28) ∧
    _parseDate [255, 245, 164, 29] ≠ specDateAlg (bytes_to_bint32 [255, 245, 164, 29]) := by
  refine ⟨by decide, by decide, by decide, by decide⟩

/-- C3 (amended): for every 4-byte DATE buffer whose signed wire day
keeps `nday = wireDay + 678882` positive — so every intermediate quantity
stays nonnegative and Go's truncated division coincides with floor
division — `_parseDate` computes exactly the spec's integer calendar
algorithm. -/
theorem parseDate_eq_specDateAlg (raw : List Nat)
    (h : 1 ≤ bytes_to_bint32 raw + 678882) :
    _parseDate raw = specDateAlg (bytes_to_bint32 raw) := by
  simp only [_parseDate, specDateAlg, goDiv]
  set w := bytes_to_bint32 raw with hw
  have e1 : Int.tdiv (4 * (w + 678882) - 1) 146097
      = (4 * (w + 678882) - 1) / 146097 := Int.tdiv_eq_ediv (by omega) (by decide)
  have f1 : Int.fdiv (4 * (w + 678882) - 1) 146097
      = (4 * (w + 678882) - 1) / 146097 := Int.fdiv_eq_ediv _ (by decide)
  rw [e1, f1]
  set c := (4 * (w + 678882) - 1) / 146097 with hc
  have hr1 : 0 ≤ 4 * (w + 678882) - 1 - 146097 * c := by omega
  have e2 : Int.tdiv (4 * (w + 678882) - 1 - 146097 * c) 4
      = (4 * (w + 678882) - 1 - 146097 * c) / 4 := Int.tdiv_eq_ediv hr1 (by decide)
  have f2 : Int.fdiv (4 * (w + 678882) - 1 - 146097 * c) 4
      = (4 * (w + 678882) - 1 - 146097 * c) / 4 := Int.fdiv_eq_ediv _ (by decide)
  rw [e2, f2]
  set d := (4 * (w + 678882) - 1 - 146097 * c) / 4 with hd
  have hd0 : 0 ≤ d := by omega
  have e3 : Int.tdiv (4 * d + 3) 1461 = (4 * d + 3) / 1461 :=
    Int.tdiv_eq_ediv (by omega) (by decide)
  have f3 : Int.fdiv (4 * d + 3) 1461 = (4 * d + 3) / 1461 :=
    Int.fdiv_eq_ediv _ (by decide)
  rw [e3, f3]
  set n2 := (4 * d + 3) / 1461 with hn2
  have hr2 : 0 ≤ 4 * d + 3 - 1461 * n2 := by omega
  have e4 : Int.tdiv (4 * d + 3 - 1461 * n2 + 4) 4
      = (4 * d + 3 - 1461 * n2 + 4) / 4 := Int.tdiv_eq_ediv (by omega) (by decide)
  have f4 : Int.fdiv (4 * d + 3 - 1461 * n2 + 4) 4
      = (4 * d + 3 - 1461 * n2 + 4) / 4 := Int.fdiv_eq_ediv _ (by decide)
  rw [e4, f4]
  set d2 := (4 * d + 3 - 1461 * n2 + 4) / 4 with hd2
  have hd21 : 1 ≤ d2 := by omega
  have e5 : Int.tdiv (5 * d2 - 3) 153 = (5 * d2 - 3) / 153 :=
    Int.tdiv_eq_ediv (by omega) (by decide)
  have f5 : Int.fdiv (5 * d2 - 3) 153 = (5 * d2 - 3) / 153 :=
    Int.fdiv_eq_ediv _ (by decide)
  rw [e5, f5]
  set m := (5 * d2 - 3) / 153 with hm
  have hr3 : 0 ≤ 5 * d2 - 3 - 153 * m := by omega
  have e6 : Int.tdiv (5 * d2 - 3 - 153 * m + 5) 5
      = (5 * d2 - 3 - 153 * m + 5) / 5 := Int.tdiv_eq_ediv (by omega) (by decide)
  have f6 : Int.fdiv (5 * d2 - 3 - 153 * m + 5) 5
      = (5 * d2 - 3 - 153 * m + 5) / 5 := Int.fdiv_eq_ediv _ (by decide)
  rw [e6, f6]

/-- C3 (witness): wire day 0 satisfies the hypothesis and decodes — by
both the code and the spec algorithm — to 1858-11-17, the modified Julian
day epoch. -/
theorem parseDate_eq_specDateAlg_witness :
    (1 ≤ bytes_to_bint32 [0, 0, 0, 0] + 678882) ∧
    _parseDate [0, 0, 0, 0] = specDateAlg (bytes_to_bint32 [0, 0, 0, 0]) ∧
    _parseDate [0, 0, 0, 0] = (1858, 11, 17) :=
  ⟨by decide, parseDate_eq_specDateAlg [0, 0, 0, 0] (by decide), by decide⟩

/-- C4 (counterexample): the claim fails at two concrete inputs.  The
buffer `[128, 0, 0, 0]` (unsigned value 2^31) is read as the signed value
−2^31, so every decoded component is negative instead of the claimed
unsigned split; and the claimed particular value `n = 36000000` decodes
to hours = 1 (36000000 ten-thousandths of a second is 3600 s = 1 AM), not
hours = 10. -/
theorem parseTime_claim_counterexample :
    _parseTime [128, 0, 0, 0] = (-59, -39, -8, -364800000) ∧
    specTimeParts (beU [128, 0, 0, 0]) = (59, 39, 8, 364800000) ∧
    _parseTime [128, 0, 0, 0] ≠ specTimeParts (beU [128, 0, 0, 0]) ∧
    beU [2, 37, 81, 0] = 36000000 ∧
    _parseTime [2, 37, 81, 0] = (1, 0, 0, 0) ∧
    _parseTime [2, 37, 81, 0] ≠ (10, 0, 0, 0) := by
  refine ⟨by decide, by decide, by decide, by decide, by decide, by decide⟩

/-- C4 (amended): for every 4-byte TIME buffer whose unsigned big-endian
value stays below 2^31 (the reader is signed, not unsigned as claimed),
decoding yields hours = (n div 10000) div 3600, minutes = ((n div 10000)
div 60) mod 60, seconds = (n div 10000) mod 60 and nanoseconds =
(n mod 10000) · 100000.  The claimed particular value is off by a factor
of ten: n = 36000000 yields 1 AM; 10 AM is n = 360000000. -/
theorem parseTime_eq_specTimeParts (raw : List Nat) (hlen : raw.length = 4)
    (h : beU raw < 2147483648) :
    _parseTime raw = specTimeParts (beU raw) := by
  have hu := bytes_to_bint32_eq_beU hlen h
  simp only [_parseTime, specTimeParts, goDiv, goMod, hu]
  set u := beU raw with hU
  have h0 : (0 : Int) ≤ (u : Int) := Int.natCast_nonneg u
  have e1 : Int.tdiv (u : Int) 10000 = (u : Int) / 10000 :=
    Int.tdiv_eq_ediv h0 (by decide)
  rw [e1]
  have e2 : Int.tdiv ((u : Int) / 10000) 60 = (u : Int) / 10000 / 60 :=
    Int.tdiv_eq_ediv (by omega) (by decide)
  rw [e2]
  have e3 : Int.tdiv ((u : Int) / 10000 / 60) 60 = (u : Int) / 10000 / 60 / 60 :=
    Int.tdiv_eq_ediv (by omega) (by decide)
  rw [e3]
  have m1 : Int.tmod ((u : Int) / 10000) 60 = (u : Int) / 10000 % 60 :=
    Int.tmod_eq_emod (by omega) (by decide)
  rw [m1]
  have m2 : Int.tmod (u : Int) 10000 = (u : Int) % 10000 :=
    Int.tmod_eq_emod h0 (by decide)
  rw [m2]
  have m3 : Int.tmod ((u : Int) / 10000 / 60) 60 = (u : Int) / 10000 / 60 % 60 :=
    Int.tmod_eq_emod (by omega) (by decide)
  rw [m3]
  simp only [Prod.mk.injEq]
  refine ⟨by omega, by omega, by omega, by omega⟩

/-- C4 (witness): the buffer for 360000000 ten-thousandths of a second
satisfies the hypotheses and decodes to 10 AM. -/
theorem parseTime_eq_specTimeParts_witness :
    [(21 : Nat), 117, 42, 0].length = 4 ∧ beU [21, 117, 42, 0] < 2147483648 ∧
    _parseTime [21, 117, 42, 0] = specTimeParts (beU [21, 117, 42, 0]) ∧
    specTimeParts (beU [21, 117, 42, 0]) = (10, 0, 0, 0) :=
  ⟨by decide, by decide, parseTime_eq_specTimeParts [21, 117, 42, 0] (by decide) (by decide),
    by decide⟩

end Fb

namespace Fb

/-- C5: for SHORT, LONG and INT64 columns with negative scale (within the
`int32` range of `decimal.New`'s exponent argument) the decoded value is
the `Decimal` with mantissa the wire integer and exponent the scale,
whose exact rational value is `integer · 10^scale` — no floating-point
rounding is involved on this path. -/
theorem scaled_negative_exact_decimal (env : Externals) (x : xSQLVAR)
    (raw : List Nat) (tz cs : String)
    (hneg : x.sqlscale < 0) (hge : -2147483648 ≤ x.sqlscale) :
    (x.sqltype = SQL_TYPE_SHORT →
      value env x raw tz cs
        = (.vDecimal ⟨toInt16 (bytes_to_bint32 raw), x.sqlscale⟩, none) ∧
      decValue ⟨toInt16 (bytes_to_bint32 raw), x.sqlscale⟩
        = (toInt16 (bytes_to_bint32 raw) : ℚ) * (10 : ℚ) ^ x.sqlscale) ∧
    (x.sqltype = SQL_TYPE_LONG →
      value env x raw tz cs
        = (.vDecimal ⟨bytes_to_bint32 raw, x.sqlscale⟩, none) ∧
      decValue ⟨bytes_to_bint32 raw, x.sqlscale⟩
        = (bytes_to_bint32 raw : ℚ) * (10 : ℚ) ^ x.sqlscale) ∧
    (x.sqltype = SQL_TYPE_INT64 →
      value env x raw tz cs
        = (.vDecimal ⟨bytes_to_bint64 raw, x.sqlscale⟩, none) ∧
      decValue ⟨bytes_to_bint64 raw, x.sqlscale⟩
        = (bytes_to_bint64 raw : ℚ) * (10 : ℚ) ^ x.sqlscale) := by
  have hnp : ¬ (0 < x.sqlscale) := by omega
  have h32 : toInt32 x.sqlscale = x.sqlscale := toInt32_eq_self hge (by omega)
  refine ⟨fun ht => ⟨?_, rfl⟩, fun ht => ⟨?_, rfl⟩, fun ht => ⟨?_, rfl⟩⟩ <;>
    simp [value, ht, SQL_TYPE_TEXT, SQL_TYPE_VARYING, SQL_TYPE_SHORT, SQL_TYPE_LONG,
      SQL_TYPE_INT64, decimalNew, hnp, hneg, h32]

/-- C5 (witness): a SHORT with scale −2 and wire integer 12345 decodes to
the decimal with mantissa 12345 and exponent −2, whose exact value is
123.45 = 2469/20. -/
theorem scaled_negative_exact_decimal_witness :
    ((-2 : Int) < 0) ∧
    value defaultExternals ⟨SQL_TYPE_SHORT, -2, 0, 4, false, "", "", "", ""⟩
        [0, 0, 48, 57] "" "UTF8" = (.vDecimal ⟨12345, -2⟩, none) ∧
    decValue ⟨12345, -2⟩ = 2469 / 20 := by
  have h := (scaled_negative_exact_decimal defaultExternals
    ⟨SQL_TYPE_SHORT, -2, 0, 4, false, "", "", "", ""⟩ [0, 0, 48, 57] "" "UTF8"
    (by decide) (by decide)).1 rfl
  refine ⟨by decide, h.1, ?_⟩
  norm_num [decValue]

/-- C7 (counterexample): the claim is false when `integer · 10^scale`
overflows `int64`: a SHORT with scale 15 and wire integer 32767 decodes
to the wrapped value −4126488147419103232, not to 32767 · 10^15. -/
theorem scale_pos_overflow_counterexample :
    toInt16 (bytes_to_bint32 [0, 0, 127, 255]) = 32767 ∧
    value defaultExternals ⟨SQL_TYPE_SHORT, 15, 0, 4, false, "", "", "", ""⟩
        [0, 0, 127, 255] "" "" = (.vInt64 (-4126488147419103232), none) ∧
    (-4126488147419103232 : Int) ≠ 32767 * 10 ^ 15 := by
  refine ⟨by decide, by decide, by decide⟩

/-- C7 (amended): for SHORT, LONG and INT64 columns with scale in
`[1, 18]`, the decoded value is the 64-bit integer `integer · 10^scale`
whenever that product lies in the `int64` range; outside that range the
Go multiplication wraps modulo 2^64 (see the counterexample). -/
theorem scale_pos_exact_in_range (env : Externals) (x : xSQLVAR)
    (raw : List Nat) (tz cs : String)
    (hs1 : 1 ≤ x.sqlscale) (hs2 : x.sqlscale ≤ 18) :
    (x.sqltype = SQL_TYPE_SHORT →
      -9223372036854775808 ≤ toInt16 (bytes_to_bint32 raw) * 10 ^ x.sqlscale.toNat →
      toInt16 (bytes_to_bint32 raw) * 10 ^ x.sqlscale.toNat < 9223372036854775808 →
      value env x raw tz cs
        = (.vInt64 (toInt16 (bytes_to_bint32 raw) * 10 ^ x.sqlscale.toNat), none)) ∧
    (x.sqltype = SQL_TYPE_LONG →
      -9223372036854775808 ≤ bytes_to_bint32 raw * 10 ^ x.sqlscale.toNat →
      bytes_to_bint32 raw * 10 ^ x.sqlscale.toNat < 9223372036854775808 →
      value env x raw tz cs
        = (.vInt64 (bytes_to_bint32 raw * 10 ^ x.sqlscale.toNat), none)) ∧
    (x.sqltype = SQL_TYPE_INT64 →
      -9223372036854775808 ≤ bytes_to_bint64 raw * 10 ^ x.sqlscale.toNat →
      bytes_to_bint64 raw * 10 ^ x.sqlscale.toNat < 9223372036854775808 →
      value env x raw tz cs
        = (.vInt64 (bytes_to_bint64 raw * 10 ^ x.sqlscale.toNat), none)) := by
  have hp : 0 < x.sqlscale := by omega
  have hpw := goPow10Int64_eq_pow (le_of_lt hp) hs2
  refine ⟨fun ht h1 h2 => ?_, fun ht h1 h2 => ?_, fun ht h1 h2 => ?_⟩ <;>
    simp [value, ht, SQL_TYPE_TEXT, SQL_TYPE_VARYING, SQL_TYPE_SHORT, SQL_TYPE_LONG,
      SQL_TYPE_INT64, hp, hpw, wrap64_eq_self h1 h2]

/-- C7 (witness): a SHORT with scale 2 and wire integer 5 decodes to the
integer 500, as the claim's particular case states. -/
theorem scale_pos_exact_in_range_witness :
    ((1 : Int) ≤ 2) ∧ ((2 : Int) ≤ 18) ∧
    value defaultExternals ⟨SQL_TYPE_SHORT, 2, 0, 4, false, "", "", "", ""⟩
        [0, 0, 0, 5] "" "" = (.vInt64 500, none) := by
  refine ⟨by decide, by decide, ?_⟩
  exact (scale_pos_exact_in_range defaultExternals
    ⟨SQL_TYPE_SHORT, 2, 0, 4, false, "", "", "", ""⟩ [0, 0, 0, 5] "" ""
    (by decide) (by decide)).1 rfl (by decide) (by decide)

/-- C1 (counterexample): for a negative scale the INT128 branch
multiplies by `int64(math.Pow10(scale))`, which is 0, so a buffer with
value 10 and scale −1 decodes to the big integer 0, while the claimed
arbitrary-precision result `10 · 10^(−1)` is 1. -/
theorem int128_negative_scale_counterexample :
    value defaultExternals ⟨SQL_TYPE_INT128, -1, 0, 16, false, "", "", "", ""⟩
        [0, 0, 0, 0, 0, 0, 0, 0, 0, 0, 0, 0, 0, 0, 0, 10] "" ""
      = (.vBigInt 0, none) ∧
    specInt128Value [0, 0, 0, 0, 0, 0, 0, 0, 0, 0, 0, 0, 0, 0, 0, 10] (-1) = 1 ∧
    ((0 : ℚ) ≠ 1) := by
  have e1 : bytes_to_bint64 ([0, 0, 0, 0, 0, 0, 0, 0, 0, 0, 0, 0, 0, 0, 0, 10].take 8)
      = 0 := by decide
  have e2 : bytes_to_bint64 ([0, 0, 0, 0, 0, 0, 0, 0, 0, 0, 0, 0, 0, 0, 0, 10].drop 8)
      = 10 := by decide
  refine ⟨by decide, ?_, by norm_num⟩
  simp only [specInt128Value, e1, e2]
  norm_num

/-- C1 (amended): for every INT128 column with scale in `[0, 18]` and
every 16-byte buffer, the decoded big integer is
`(high · 2^64 + low) · 10^scale` with both halves read as signed 64-bit
big-endian integers, and this integer equals the spec's formula computed
exactly over ℚ.  For a negative scale the `int64(math.Pow10(scale))`
multiplier truncates to 0 (see the counterexample). -/
theorem int128_scale_in_range (env : Externals) (x : xSQLVAR)
    (raw : List Nat) (tz cs : String) (ht : x.sqltype = SQL_TYPE_INT128)
    (_hlen : raw.length = 16) (h0 : 0 ≤ x.sqlscale) (h18 : x.sqlscale ≤ 18) :
    value env x raw tz cs
      = (.vBigInt ((bytes_to_bint64 (raw.take 8) * 18446744073709551616
          + bytes_to_bint64 (raw.drop 8)) * 10 ^ x.sqlscale.toNat), none) ∧
    (((bytes_to_bint64 (raw.take 8) * 18446744073709551616
        + bytes_to_bint64 (raw.drop 8)) * 10 ^ x.sqlscale.toNat : Int) : ℚ)
      = specInt128Value raw x.sqlscale := by
  constructor
  · simp [value, ht, SQL_TYPE_TEXT, SQL_TYPE_VARYING, SQL_TYPE_SHORT, SQL_TYPE_LONG,
      SQL_TYPE_INT64, SQL_TYPE_INT128, goPow10Int64_eq_pow h0 h18]
  · have hz : (10 : ℚ) ^ x.sqlscale = (10 : ℚ) ^ x.sqlscale.toNat := by
      rw [← zpow_natCast, Int.toNat_of_nonneg h0]
    simp only [specInt128Value, hz]
    push_cast
    ring

/-- C1 (witness): scale 2 with a 16-byte buffer of value 256 decodes to
the big integer 25600. -/
theorem int128_scale_in_range_witness :
    ([(0 : Nat), 0, 0, 0, 0, 0, 0, 0, 0, 0, 0, 0, 0, 0, 1, 0].length = 16) ∧
    ((0 : Int) ≤ 2) ∧ ((2 : Int) ≤ 18) ∧
    value defaultExternals ⟨SQL_TYPE_INT128, 2, 0, 16, false, "", "", "", ""⟩
        [0, 0, 0, 0, 0, 0, 0, 0, 0, 0, 0, 0, 0, 0, 1, 0] "" ""
      = (.vBigInt 25600, none) := by
  refine ⟨by decide, by decide, by decide, ?_⟩
  exact (int128_scale_in_range defaultExternals
    ⟨SQL_TYPE_INT128, 2, 0, 16, false, "", "", "", ""⟩
    [0, 0, 0, 0, 0, 0, 0, 0, 0, 0, 0, 0, 0, 0, 1, 0] "" ""
    rfl (by decide) (by decide) (by decide)).1

end Fb

namespace Fb

/-- C2 (code behavior at the failing input): with a Timezone ID Table
that has no entry for the wire ID 0, a TIME_TZ value decodes WITHOUT any
error: `getTimezoneNameByID` returns the empty string for the missing
entry, `_parseTimezone` passes it to `time.LoadLocation` and discards the
error, `LoadLocation("")` yields UTC, and `value` returns the decoded
time carrying the default zone UTC together with a nil error — the code
never produces the `UnknownTimezone` failure the claim requires. -/
theorem timeTz_unknown_id_defaults_to_utc :
    defaultExternals.timezoneNameById (bytes_to_bint16 ([0, 0, 0, 0, 0, 0].drop 4))
      = none ∧
    getTimezoneNameByID defaultExternals (bytes_to_bint16 ([0, 0, 0, 0, 0, 0].drop 4))
      = "" ∧
    value defaultExternals ⟨SQL_TYPE_TIME_TZ, 0, 0, 6, false, "", "", "", ""⟩
        [0, 0, 0, 0, 0, 0] "" "UTF8"
      = (.vTime ⟨0, 1, 1, 0, 0, 0, 0, some "UTC"⟩, none) := by
  refine ⟨rfl, rfl, by decide⟩

/-- C6 (counterexample): type code 999 is not in the catalog, yet `value`
returns a nil value together with a nil error — no `UnsupportedType`
error is signalled (the switch has no default case and the engine defines
no such error at all). -/
theorem value_type999_returns_nil_nil :
    value defaultExternals ⟨999, 0, 0, 0, false, "", "", "", ""⟩ [1, 2] "" "UTF8"
      = (.vNil, none) := by decide

/-- C6 (amended): for every descriptor whose type code is not one of the
18 codes handled by `value`'s switch (a set that also omits the catalog
types D_FLOAT, ARRAY, QUAD and NULL), decoding returns a nil value and a
nil error rather than signalling an error. -/
theorem value_unhandled_type_nil_nil (env : Externals) (x : xSQLVAR)
    (raw : List Nat) (tz cs : String)
    (h : x.sqltype ∉ ([452, 448, 500, 496, 580, 32752, 570, 560, 510, 32756, 32754,
      482, 480, 32764, 520, 32758, 32760, 32762] : List Int)) :
    value env x raw tz cs = (.vNil, none) := by
  simp only [List.mem_cons, List.mem_singleton, not_or] at h
  obtain ⟨h1, h2, h3, h4, h5, h6, h7, h8, h9, h10, h11, h12, h13, h14, h15, h16,
    h17, h18, -⟩ := h
  simp only [value, SQL_TYPE_TEXT, SQL_TYPE_VARYING, SQL_TYPE_SHORT, SQL_TYPE_LONG,
    SQL_TYPE_INT64, SQL_TYPE_INT128, SQL_TYPE_DATE, SQL_TYPE_TIME, SQL_TYPE_TIMESTAMP,
    SQL_TYPE_TIME_TZ, SQL_TYPE_TIMESTAMP_TZ, SQL_TYPE_FLOAT, SQL_TYPE_DOUBLE,
    SQL_TYPE_BOOLEAN, SQL_TYPE_BLOB, SQL_TYPE_DEC_FIXED, SQL_TYPE_DEC64,
    SQL_TYPE_DEC128]
  rw [if_neg h1, if_neg h2, if_neg h3, if_neg h4, if_neg h5, if_neg h6, if_neg h7,
    if_neg h8, if_neg h9, if_neg h10, if_neg h11, if_neg h12, if_neg h13, if_neg h14,
    if_neg h15, if_neg h16, if_neg h17, if_neg h18]

/-- C6 (witness): type code 530 (D_FLOAT, absent from the switch) decodes
to a nil value with a nil error. -/
theorem value_unhandled_type_witness :
    ((530 : Int) ∉ ([452, 448, 500, 496, 580, 32752, 570, 560, 510, 32756, 32754,
      482, 480, 32764, 520, 32758, 32760, 32762] : List Int)) ∧
    value defaultExternals ⟨SQL_TYPE_D_FLOAT, 0, 0, 8, false, "", "", "", ""⟩
        [1, 2, 3, 4, 5, 6, 7, 8] "" "UTF8" = (.vNil, none) :=
  ⟨by decide, value_unhandled_type_nil_nil defaultExternals
    ⟨SQL_TYPE_D_FLOAT, 0, 0, 8, false, "", "", "", ""⟩
    [1, 2, 3, 4, 5, 6, 7, 8] "" "UTF8" (by decide)⟩

/-- C8: a TEXT or VARYING column with subtype 1 (octets) decodes to the
input bytes unchanged, for every session charset name. -/
theorem octets_passthrough (env : Externals) (x : xSQLVAR) (raw : List Nat)
    (tz cs : String)
    (ht : x.sqltype = SQL_TYPE_TEXT ∨ x.sqltype = SQL_TYPE_VARYING)
    (hsub : x.sqlsubtype = 1) :
    value env x raw tz cs = (.vBytes raw, none) := by
  rcases ht with h | h <;>
    simp [value, h, hsub, SQL_TYPE_TEXT, SQL_TYPE_VARYING]

/-- C8 (witness): a TEXT octets column returns its bytes unchanged under
a legacy charset name. -/
theorem octets_passthrough_witness :
    ((452 : Int) = SQL_TYPE_TEXT ∨ (452 : Int) = SQL_TYPE_VARYING) ∧
    value defaultExternals ⟨SQL_TYPE_TEXT, 0, 1, 3, false, "", "", "", ""⟩
        [7, 8, 9] "" "WIN1250" = (.vBytes [7, 8, 9], none) :=
  ⟨Or.inl rfl, octets_passthrough defaultExternals
    ⟨SQL_TYPE_TEXT, 0, 1, 3, false, "", "", "", ""⟩ [7, 8, 9] "" "WIN1250"
    (Or.inl rfl) rfl⟩

/-- C9: with subtype 0 (text), the declared charset ISO8859_4 is decoded
by the same routine as ISO8859_5, and WIN1253 and WIN1254 are each
decoded by the same routine as WIN1252, so the decoded strings agree for
every byte buffer and every choice of the external decoders. -/
theorem charset_alias_routing (env : Externals) (x : xSQLVAR) (raw : List Nat)
    (hsub : x.sqlsubtype = 0) :
    parseString env x raw "ISO8859_4" = parseString env x raw "ISO8859_5" ∧
    parseString env x raw "WIN1253" = parseString env x raw "WIN1252" ∧
    parseString env x raw "WIN1254" = parseString env x raw "WIN1252" := by
  obtain ⟨t, sc, sub, len, nok, f1, f2, f3, f4⟩ := x
  have hsub2 : sub = 0 := hsub
  subst hsub2
  exact ⟨rfl, rfl, rfl⟩

/-- C9 (witness): the routing equalities at a concrete descriptor, buffer
and decoder family. -/
theorem charset_alias_routing_witness :
    ((0 : Int) = 0) ∧
    (parseString defaultExternals ⟨SQL_TYPE_TEXT, 0, 0, 1, false, "", "", "", ""⟩
        [65] "ISO8859_4"
      = parseString defaultExternals ⟨SQL_TYPE_TEXT, 0, 0, 1, false, "", "", "", ""⟩
        [65] "ISO8859_5" ∧
    parseString defaultExternals ⟨SQL_TYPE_TEXT, 0, 0, 1, false, "", "", "", ""⟩
        [65] "WIN1253"
      = parseString defaultExternals ⟨SQL_TYPE_TEXT, 0, 0, 1, false, "", "", "", ""⟩
        [65] "WIN1252" ∧
    parseString defaultExternals ⟨SQL_TYPE_TEXT, 0, 0, 1, false, "", "", "", ""⟩
        [65] "WIN1254"
      = parseString defaultExternals ⟨SQL_TYPE_TEXT, 0, 0, 1, false, "", "", "", ""⟩
        [65] "WIN1252") :=
  ⟨rfl, charset_alias_routing defaultExternals
    ⟨SQL_TYPE_TEXT, 0, 0, 1, false, "", "", "", ""⟩ [65] rfl⟩

/-- C10: for a TEXT or VARYING column whose subtype is neither 0 nor 1,
`parseString` returns the raw input bytes unchanged, for every charset
name. -/
theorem parseString_other_subtype_raw (env : Externals) (x : xSQLVAR)
    (raw : List Nat) (cs : String)
    (h0 : x.sqlsubtype ≠ 0) (h1 : x.sqlsubtype ≠ 1) :
    parseString env x raw cs = .psBytes raw := by
  simp only [parseString]
  rw [if_neg h1, if_neg h0]

/-- C10 (witness): subtype 2 passes the bytes through. -/
theorem parseString_other_subtype_raw_witness :
    ((2 : Int) ≠ 0) ∧ ((2 : Int) ≠ 1) ∧
    parseString defaultExternals ⟨SQL_TYPE_TEXT, 0, 2, 3, false, "", "", "", ""⟩
        [1, 2, 3] "UTF8" = .psBytes [1, 2, 3] :=
  ⟨by decide, by decide, parseString_other_subtype_raw defaultExternals
    ⟨SQL_TYPE_TEXT, 0, 2, 3, false, "", "", "", ""⟩ [1, 2, 3] "UTF8"
    (by decide) (by decide)⟩

end Fb
